import Mathlib

/-!
Verification development for the SolanaMemeTrader repository.

The repository is a TypeScript trading bot:
  - `src/index.ts` — websocket subscription handler (`websocketHandler`),
    the per-candidate pipeline (`handleNewPool`);
  - `src/utils/transactions.ts` — adapters `fetchTransactionDetails`
    (two variants: an environment-URI-keyed one at lines 14-34 and an
    API-key-keyed one at lines 179-263), `createSwapTransactions`,
    `getRugCheckConfirmed`;
  - `src/utils/config.ts` — the static configuration object;
  - `src/utils/types.ts` — interfaces.

This file shallowly embeds those functions: decoded JSON payloads become an
inductive `Json`, JavaScript string methods become list-of-character
functions with the same semantics, network calls become explicit
`Except`-valued inputs (`.error` = the awaited call threw), and each
handler is embedded as a pure function from its inputs to its returned
value together with the list of observable actions it performs.
-/

/-- Decoded JSON values, the result of `JSON.parse`.  An object is its
field list after duplicate-key resolution (`JSON.parse` keeps one binding
per key).  Numbers are modelled as integers; no claim depends on
fractional numeric values. -/
inductive Json where
  | null
  | bool (b : Bool)
  | num (n : Int)
  | str (s : String)
  | arr (elems : List Json)
  | obj (fields : List (String × Json))

/-- JavaScript truthiness of a decoded JSON value: `null`, `false`, `0`
and `""` are falsy; arrays and objects are always truthy. -/
def jsTruthy : Json → Bool
  | .null => false
  | .bool b => b
  | .num n => n != 0
  | .str s => !s.isEmpty
  | .arr _ => true
  | .obj _ => true

/-- Truthiness of a possibly-absent value (`undefined` is falsy). -/
def jsTruthyOpt : Option Json → Bool
  | none => false
  | some v => jsTruthy v

/-- Property access `j.key`: a field of an object, `undefined` (`none`)
on anything else — matching `x?.key` optional chaining on decoded JSON. -/
def Json.getField (j : Json) (key : String) : Option Json :=
  match j with
  | .obj fields => fields.lookup key
  | _ => none

/-- Optional chaining through a possibly-absent value: `x?.key`. -/
def jsonChain (j : Option Json) (key : String) : Option Json :=
  match j with
  | some v => v.getField key
  | none => none

/-- Does the character list start with the pattern?  (Semantics of the
prefix test underlying `String.prototype.includes` / `endsWith`.) -/
def startsWithChars : List Char → List Char → Bool
  | [], _ => true
  | _ :: _, [] => false
  | p :: ps, c :: cs => p == c && startsWithChars ps cs

/-- Does the character list contain the pattern as a contiguous run? -/
def includesChars (pat : List Char) : List Char → Bool
  | [] => pat.isEmpty
  | c :: cs => startsWithChars pat (c :: cs) || includesChars pat cs

/-- JavaScript `s.includes(pat)`: exact substring containment. -/
def jsIncludes (s pat : String) : Bool :=
  includesChars pat.data s.data

/-- JavaScript `s.endsWith(suffix)`. -/
def jsEndsWith (s suffix : String) : Bool :=
  startsWithChars suffix.data.reverse s.data.reverse

/-- JavaScript `s.toLowerCase()` (ASCII range; the strings compared in
the source are base58 addresses, which are ASCII). -/
def jsToLower (s : String) : String :=
  ⟨s.data.map Char.toLower⟩

/-- Falsiness of a string-or-absent value: `undefined` and `""` are
falsy (the `!transactionDetails.solMint` style of check). -/
def strFalsy : Option String → Bool
  | none => true
  | some s => s.isEmpty

/-! ## Configuration (src/utils/config.ts) -/

structure LiquidityPoolConfig where
  ignore_pump_fun : Bool
  raydium_program_id : String
  wsol_pc_mint : String

structure TxConfig where
  get_retry_interval : Nat
  get_retry_timeout : Nat

structure SwapConfig where
  amount : String
  slippageBps : String

structure RugCheckConfig where
  single_holder_ownership : Int
  not_allowed : List String

structure Config where
  liquidity_pool : LiquidityPoolConfig
  tx : TxConfig
  swap : SwapConfig
  rug_check : RugCheckConfig

/-- The static configuration object from src/utils/config.ts. -/
def config : Config :=
  { liquidity_pool :=
      { ignore_pump_fun := true
        raydium_program_id := "675kPX9MHTjS2zt1qfr1NYHuzeLXfQM9H24wFSUt1Mp8"
        wsol_pc_mint := "So111111111111111111111111111111111111112" }
    tx :=
      { get_retry_interval := 750
        get_retry_timeout := 20000 }
    swap :=
      { amount := "10000000"
        slippageBps := "200" }
    rug_check :=
      { single_holder_ownership := 30
        not_allowed :=
          ["Freeze Authority still enabled", "Large Amount of LP Unlocked", "Copycat token"] } }

/-! ## Event filter (src/index.ts, message handler, lines 163-192) -/

/-- The fixed marker literal the message handler searches for in log
entries (src/index.ts line 178). -/
def poolCreationMarker : String :=
  "Program log: initialize2: InitializeInstruction2"

/-- The value at `parsedData?.params?.result?.value?.logs`. -/
def logsOf (j : Json) : Option Json :=
  jsonChain (jsonChain (jsonChain (j.getField "params") "result") "value") "logs"

/-- The value at `parsedData?.params?.result?.value?.signature`. -/
def signatureOf (j : Json) : Option Json :=
  jsonChain (jsonChain (jsonChain (j.getField "params") "result") "value") "signature"

/-- One step of `logs.some(...)` (src/index.ts lines 175-179): the entry
is a string and contains the marker. -/
def isMarkerLog (l : Json) : Bool :=
  match l with
  | .str s => jsIncludes s poolCreationMarker
  | _ => false

/-- The event filter of the message handler (src/index.ts lines 163-183):
reject unless `logs` is an array and `signature` is a string; accept iff
some log entry is a string containing the marker, and hand on the
message's signature. -/
def classifyMessage (j : Json) : Option String :=
  match logsOf j, signatureOf j with
  | some (Json.arr logs), some (Json.str sig) =>
    if logs.any isMarkerLog then some sig else none
  | _, _ => none

/-- Is every entry of the array a string?  (Used to state the spec's
"logs is a sequence of strings" side condition; the source never checks
this for the whole array.) -/
def allStringLogs (logs : List Json) : Bool :=
  logs.all (fun l => match l with | .str _ => true | _ => false)

/-! ## Transaction details (src/utils/types.ts `DisplayDataItem`) -/

/-- The record both fetch variants return.  The TypeScript interface
declares `string` fields, but the values come from untyped JSON, so a
field can be absent (`undefined`) at runtime; a non-string mint field is
modelled as absent. -/
structure DisplayDataItem where
  solMint : Option String
  tokenMint : Option String
  timestamp : Nat
  deriving DecidableEq

/-! ## Pipeline (src/index.ts `handleNewPool`, lines 66-136) -/

/-- An adapter invocation observable from `handleNewPool`. -/
inductive StageCall where
  | fetchCall (signature : String)
  | rugCall (tokenMint : String)
  | swapCall (solMint tokenMint : String)
  deriving DecidableEq

/-- The behaviour of the three awaited adapters, as seen by
`handleNewPool`: each call either returns its typed value (`.ok`) or
throws (`.error`), the thrown value abstracted to a string. -/
structure PipelineEnv where
  fetchTransactionDetails : String → Except String (Option DisplayDataItem)
  getRugCheckConfirmed : String → Except String Bool
  createSwapTransactions : String → String → Except String (Option String)

/-- The `try` block of `handleNewPool` (src/index.ts lines 67-130):
the adapter calls it makes, and either the successful-swap URL it would
report (`.ok (some url)`), a rejection (`.ok none`), or a thrown error
(`.error`).  Stage order and short-circuiting mirror the source: fetch,
missing-mint check, pump-suffix check, rug check, swap. -/
def handleNewPoolBody (env : PipelineEnv) (signature : String) :
    List StageCall × Except String (Option String) :=
  match env.fetchTransactionDetails signature with
  | .error e => ([.fetchCall signature], .error e)
  | .ok none => ([.fetchCall signature], .ok none)
  | .ok (some td) =>
    if strFalsy td.solMint || strFalsy td.tokenMint then
      ([.fetchCall signature], .ok none)
    else
      let solMint := td.solMint.getD ""
      let tokenMint := td.tokenMint.getD ""
      if jsEndsWith (jsToLower tokenMint) "pump" && config.liquidity_pool.ignore_pump_fun then
        ([.fetchCall signature], .ok none)
      else
        match env.getRugCheckConfirmed tokenMint with
        | .error e => ([.fetchCall signature, .rugCall tokenMint], .error e)
        | .ok false => ([.fetchCall signature, .rugCall tokenMint], .ok none)
        | .ok true =>
          match env.createSwapTransactions solMint tokenMint with
          | .error e =>
            ([.fetchCall signature, .rugCall tokenMint, .swapCall solMint tokenMint], .error e)
          | .ok txUrl =>
            ([.fetchCall signature, .rugCall tokenMint, .swapCall solMint tokenMint], .ok txUrl)

/-- `handleNewPool` (src/index.ts lines 66-136): the `try` body wrapped
in the `catch` that logs and swallows every thrown error, so the
function always resolves.  The second component is the successful-swap
URL when one was reached, `none` on every rejection or error path. -/
def handleNewPool (env : PipelineEnv) (signature : String) :
    List StageCall × Option String :=
  let r := handleNewPoolBody env signature
  (r.1, match r.2 with
        | .ok v => v
        | .error _ => none)

/-! ## Connection events (src/index.ts `websocketHandler`, lines 138-230) -/

/-- Observable actions of the websocket handler's callbacks. -/
inductive Event where
  | closeTransport (code : Option Nat)
  | stage (c : StageCall)
  | restartHandler
  | scheduleReconnect (delayMs : Nat)
  | procExit (code : Nat)
  deriving DecidableEq

/-- The `message` callback (src/index.ts lines 163-201) on one inbound
frame.  `data = none` models `JSON.parse` throwing on an undecodable
frame: the callback's `catch` then calls `ws.close()` (no close code)
and schedules `websocketHandler` after 5000 ms.  A decoded frame is
classified; rejection does nothing, acceptance closes the transport with
code 1000, runs the pipeline, then restarts the handler. -/
def onMessage (env : PipelineEnv) (data : Option Json) : List Event :=
  match data with
  | none => [.closeTransport none, .scheduleReconnect 5000]
  | some j =>
    match classifyMessage j with
    | none => []
    | some sig =>
      .closeTransport (some 1000) :: ((handleNewPool env sig).1.map .stage ++ [.restartHandler])

/-- The `close` callback (src/index.ts lines 210-218): schedule a
reconnect after 5000 ms unless the close code is 1000. -/
def onClose (code : Nat) : List Event :=
  if code != 1000 then [.scheduleReconnect 5000] else []

/-- The `error` callback (src/index.ts lines 203-208): it only logs. -/
def onError : List Event := []

/-- A transport error as the process observes it: the `error` callback
fires, and the ws library then emits a `close` event whose code is the
abnormal code of the failure (never 1000). -/
def onTransportError (subsequentCloseCode : Nat) : List Event :=
  onError ++ onClose subsequentCloseCode

/-- The top-level bootstrap (src/index.ts lines 227-230):
`websocketHandler().catch(... process.exit(1))`.  The only process exit
in the source, reached only if the handler's returned promise rejects. -/
def bootstrapCatch (handlerRejected : Bool) : List Event :=
  if handlerRejected then [.procExit 1] else []

/-! ## Rug check (src/utils/transactions.ts `getRugCheckConfirmed`,
lines 131-165) -/

/-- The payload type of the risk provider (types.ts `RugResponse`). -/
structure RugData where
  rating : Int
  warnings : List String
  deriving DecidableEq

structure RugResponse where
  success : Bool
  data : RugData
  deriving DecidableEq

/-- `getRugCheckConfirmed`: input is the awaited `axios.get` — `.error`
when the call threw, `.ok none` when `response.data` is falsy, otherwise
the typed body.  Rejects (`false`) on a thrown call, falsy or
unsuccessful body, a warning in the configured disallowed list, or a
rating above the configured ceiling; passes (`true`) otherwise. -/
def getRugCheckConfirmed (response : Except Unit (Option RugResponse)) : Bool :=
  match response with
  | .error _ => false
  | .ok respData =>
    match respData with
    | none => false
    | some r =>
      if !r.success then false
      else
        let hasDisallowedWarning :=
          r.data.warnings.any (fun warning => config.rug_check.not_allowed.contains warning)
        if hasDisallowedWarning then false
        else if r.data.rating > config.rug_check.single_holder_ownership then false
        else true

/-- Did the provider call itself fail (throw)? -/
def rugCallFailed : Except Unit (Option RugResponse) → Bool
  | .error _ => true
  | .ok _ => false

/-- The response's success flag as the source reads it
(`!response.data || !response.data.success`): reading the flag of an
absent or thrown response yields falsy. -/
def rugSuccessFlag : Except Unit (Option RugResponse) → Bool
  | .ok (some r) => r.success
  | _ => false

/-- The returned warning list (empty when there is no body). -/
def rugWarnings : Except Unit (Option RugResponse) → List String
  | .ok (some r) => r.data.warnings
  | _ => []

/-- The returned rating (zero when there is no body). -/
def rugRating : Except Unit (Option RugResponse) → Int
  | .ok (some r) => r.data.rating
  | _ => 0

/-! ## Details fetcher, environment-URI variant
(src/utils/transactions.ts lines 14-34) -/

/-- Read a field expected to hold a mint-address string; a missing or
non-string field is `undefined` at runtime, modelled as absent. -/
def strField (j : Json) (key : String) : Option String :=
  match j.getField key with
  | some (Json.str s) => some s
  | _ => none

/-- `fetchTransactionDetails` (lines 14-34): input is the awaited
`axios.get` (`.error` when it threw, otherwise `response.data` as JSON)
plus the `Date.now()` reading.  Returns `null` unless the body is a
non-empty array; otherwise copies `solMint` and `tokenMint` from its
first element.  The whole body sits in `try`/`catch`, so the function
itself never throws — it is total. -/
def fetchTransactionDetails (response : Except Unit Json) (now : Nat) :
    Option DisplayDataItem :=
  match response with
  | .error _ => none
  | .ok respData =>
    match respData with
    | .arr [] => none
    | .arr (transactionData :: _) =>
      some { solMint := strField transactionData "solMint"
             tokenMint := strField transactionData "tokenMint"
             timestamp := now }
    | _ => none

/-! ## Details fetcher, API-key-keyed variant
(src/utils/transactions.ts lines 179-263) -/

/-- The `for (const account of transactionData.accountData)` loop
(lines 227-232): the first account whose `account` field equals the
string `'mint'` and whose `nativeBalance` is truthy sets
`tokenMint = account.account` and breaks; otherwise `tokenMint` stays
the empty string. -/
def findTokenMint : List Json → String
  | [] => ""
  | account :: rest =>
    match account.getField "account" with
    | some (Json.str s) =>
      if s == "mint" && jsTruthyOpt (account.getField "nativeBalance") then s
      else findTokenMint rest
    | _ => findTokenMint rest

/-- The API-key-keyed `fetchTransactionDetails` (lines 179-263).
Inputs: whether `HELIUS_API_ENDPOINT` and `HELIUS_API_KEY` are both set,
the awaited `axios.post` (`.error` when it threw), and `Date.now()`.
Returns `null` unless the body is a non-empty array with a truthy first
element whose `accountData` scan finds a token mint; on success
`solMint` is the configured wSOL constant and `tokenMint` the scanned
value.  A truthy non-array `accountData` makes the `for..of` throw into
the `catch` (→ `null`), a falsy or absent one skips the loop (→ empty
`tokenMint` → `null`); both are the `""` branch here. -/
def fetchTransactionDetailsApiKeyed (apiConfigured : Bool)
    (response : Except Unit Json) (now : Nat) : Option DisplayDataItem :=
  if !apiConfigured then none
  else
    match response with
    | .error _ => none
    | .ok respData =>
      match respData with
      | .arr [] => none
      | .arr (transactionData :: _) =>
        if !jsTruthy transactionData then none
        else
          let solMint := config.liquidity_pool.wsol_pc_mint
          let tokenMint :=
            match transactionData.getField "accountData" with
            | some (Json.arr accounts) => findTokenMint accounts
            | _ => ""
          if tokenMint.isEmpty then none
          else some { solMint := some solMint, tokenMint := some tokenMint, timestamp := now }
      | _ => none

/-! ## Swap executor (src/utils/transactions.ts `createSwapTransactions`,
lines 36-129) -/

/-- The bs58 alphabet used by the `bs58` package. -/
def base58Alphabet : List Char :=
  "123456789ABCDEFGHJKLMNPQRSTUVWXYZabcdefghijkmnopqrstuvwxyz".data

/-- The index of a character in the bs58 alphabet. -/
def base58DigitValue (c : Char) : Nat :=
  (base58Alphabet.findIdx? (fun a => a == c)).getD 0

/-- Big-endian base-256 digits of a natural number (empty for zero),
written with explicit fuel so that it evaluates by kernel reduction; the
fuel is an upper bound on the number of digits. -/
def natToBase256 : Nat → Nat → List Nat
  | 0, _ => []
  | _ + 1, 0 => []
  | fuel + 1, n => natToBase256 fuel (n / 256) ++ [n % 256]

/-- `bs58.decode` as the base-x algorithm computes it: throw
(`.error`) on any character outside the alphabet; otherwise one zero
byte per leading `'1'` followed by the base-256 digits of the base-58
value of the whole string.  A string of k characters decodes to at most
k bytes, so k is sufficient fuel. -/
def bs58Decode (s : String) : Except Unit (List Nat) :=
  if s.data.all (fun c => base58Alphabet.contains c) then
    .ok (List.replicate (s.data.takeWhile (fun c => c == '1')).length 0 ++
         natToBase256 s.data.length
           (s.data.foldl (fun acc c => acc * 58 + base58DigitValue c) 0))
  else .error ()

/-- The external calls the `try` block of `createSwapTransactions`
awaits, each `.error` when it threw:
`quote` — the quote `axios.get` body; `swapTx` — the swap `axios.post`
body; `deserializeOk` — whether `VersionedTransaction.deserialize`
succeeds on the returned payload; `blockhash` — `getLatestBlockhash`;
`send` — `sendRawTransaction` returning the txid; `confirm` —
`confirmTransaction`, `true` when `confirmation.value.err` is truthy.
`keypairValid` models the ed25519 consistency check inside
`Keypair.fromSecretKey` on a 64-byte key. -/
structure SwapIO where
  keypairValid : Bool
  quote : Except Unit Json
  swapTx : Except Unit Json
  deserializeOk : Bool
  blockhash : Except Unit Unit
  send : Except Unit String
  confirm : Except Unit Bool

/-- The `try` block of `createSwapTransactions` (lines 49-124):
`.error` = an exception thrown inside the block, `.ok none` = a normal
`return null`, `.ok (some url)` = the solscan URL.  Mirrors the source:
quote call, falsy-quote check, swap call, falsy-payload check,
`Buffer.from`/deserialize (throws on a non-string `transaction` field or
an undeserialisable payload), blockhash, send, confirm, and the explicit
`throw` on a truthy confirmation error. -/
def swapTryBlock (io : SwapIO) : Except Unit (Option String) := do
  let quoteData ← io.quote
  if !jsTruthy quoteData then return none
  let swapData ← io.swapTx
  if !jsTruthy swapData || !jsTruthyOpt (swapData.getField "transaction") then return none
  match swapData.getField "transaction" with
  | some (Json.str _) => pure ()
  | _ => throw ()
  if !io.deserializeOk then throw ()
  let _ ← io.blockhash
  let txid ← io.send
  let confirmationErr ← io.confirm
  if confirmationErr then throw ()
  return some ("https://solscan.io/tx/" ++ txid)

/-- `createSwapTransactions` (lines 36-129).  The empty-key guard
returns `null`; then — still OUTSIDE the `try` block — the wallet is
built via `Keypair.fromSecretKey(bs58.decode(privateKey))`, which throws
past the function boundary (`.error`) on a non-base58 key, a decoded
length other than 64, or an invalid keypair; only then does the `try`
block run, whose `catch` maps every internal throw to `null`. -/
def createSwapTransactions (privateKey : String) (io : SwapIO) :
    Except Unit (Option String) :=
  if privateKey.isEmpty then .ok none
  else
    match bs58Decode privateKey with
    | .error _ => .error ()
    | .ok keyBytes =>
      if keyBytes.length != 64 then .error ()
      else if !io.keypairValid then .error ()
      else .ok (match swapTryBlock io with
                | .ok v => v
                | .error _ => none)

/-- Does the result of a call represent an exception escaping the
adapter boundary? -/
def throwsPastBoundary (r : Except Unit (Option String)) : Bool :=
  match r with
  | .error _ => true
  | .ok _ => false

/-- Does the wallet construction on line 47 throw for this key and
keypair-validity reading? -/
def walletConstructionFails (privateKey : String) (io : SwapIO) : Bool :=
  match bs58Decode privateKey with
  | .error _ => true
  | .ok keyBytes => keyBytes.length != 64 || !io.keypairValid

/-! ## Outbound HTTP request descriptors -/

inductive HttpMethod where
  | get
  | post
  deriving DecidableEq

/-- The shape of an axios call as the source issues it: method, the URL
(or the environment variable holding it), and the `timeout` option —
`none` when the call passes no timeout (axios then applies its default
of no timeout). -/
structure AxiosRequest where
  method : HttpMethod
  url : String
  timeoutMs : Option Nat
  deriving DecidableEq

/-- The quote request (transactions.ts lines 51-59): GET on
`JUP_HTTPS_QUOTE_URI` with `timeout: 5000`. -/
def quoteRequest : AxiosRequest :=
  { method := .get, url := "JUP_HTTPS_QUOTE_URI", timeoutMs := some 5000 }

/-- The swap request (transactions.ts lines 67-89): POST on
`JUP_HTTPS_SWAP_URI` with `timeout: 5000`. -/
def swapRequest : AxiosRequest :=
  { method := .post, url := "JUP_HTTPS_SWAP_URI", timeoutMs := some 5000 }

/-- The risk-check request (transactions.ts lines 133-135): GET on the
rugcheck endpoint with NO options object, hence no timeout. -/
def rugCheckRequest (tokenMint : String) : AxiosRequest :=
  { method := .get
    url := "https://api.rugcheck.xyz/v1/tokens/" ++ tokenMint ++ "/report/summary"
    timeoutMs := none }

/-! ## Sample values used by witnesses and counterexamples -/

set_option maxRecDepth 80000

/-- A stream message with the given `logs` array and `signature` value
at the path the message handler reads. -/
def mkLogMessage (logs : List Json) (sig : Json) : Json :=
  Json.obj [("params", Json.obj [("result", Json.obj [("value",
    Json.obj [("logs", Json.arr logs), ("signature", sig)])])])]

/-- An adapter environment whose fetch returns `null` and whose rug
check returns `false`. -/
def sampleEnv : PipelineEnv :=
  { fetchTransactionDetails := fun _ => .ok none
    getRugCheckConfirmed := fun _ => .ok false
    createSwapTransactions := fun _ _ => .ok none }

/-- A logs array that is NOT a sequence of strings but whose second
entry is a string containing the marker. -/
def mixedLogs : List Json := [Json.num 7, Json.str poolCreationMarker]

/-- A message whose logs array is `mixedLogs`. -/
def mixedLogsMessage : Json := mkLogMessage mixedLogs (Json.str "SIG1")

/-! ## C1 -/

/-- Relates the source's `logs.some(...)` test to the existence of a
string entry containing the marker. -/
theorem any_isMarkerLog_iff (logs : List Json) :
    logs.any isMarkerLog = true ↔
      ∃ l ∈ logs, ∃ s, l = Json.str s ∧ jsIncludes s poolCreationMarker = true := by
  rw [List.any_eq_true]
  constructor
  · rintro ⟨l, hl, hm⟩
    cases l with
    | str s => exact ⟨Json.str s, hl, s, rfl, hm⟩
    | null => simp [isMarkerLog] at hm
    | bool b => simp [isMarkerLog] at hm
    | num n => simp [isMarkerLog] at hm
    | arr es => simp [isMarkerLog] at hm
    | obj fs => simp [isMarkerLog] at hm
  · rintro ⟨l, hl, s, rfl, hm⟩
    exact ⟨Json.str s, hl, hm⟩

/-- Claim C1 as stated is FALSE: the handler checks only
`Array.isArray(logs)`, not that every entry is a string, so a message
whose logs array mixes a number with a marker-bearing string is
accepted and its signature handed on, though `logs` is not a sequence of
strings. -/
theorem classifyMessage_accepts_mixed_logs :
    classifyMessage mixedLogsMessage = some "SIG1" ∧
      allStringLogs mixedLogs = false ∧
      logsOf mixedLogsMessage = some (Json.arr mixedLogs) :=
  ⟨rfl, rfl, rfl⟩

/-- Claim C1 (amended): the filter accepts iff `logs` is an array (of
any JSON values), `signature` is a string, and SOME entry of `logs` is a
string containing the exact marker literal; on acceptance the candidate
carries exactly the message's signature, and a non-array `logs` or
non-string `signature` is rejected. -/
theorem classifyMessage_spec (j : Json) (sig : String) :
    classifyMessage j = some sig ↔
      ∃ logs, logsOf j = some (Json.arr logs) ∧
        signatureOf j = some (Json.str sig) ∧
        ∃ l ∈ logs, ∃ s, l = Json.str s ∧ jsIncludes s poolCreationMarker = true := by
  cases hl : logsOf j with
  | none =>
    have hcl : classifyMessage j = none := by
      unfold classifyMessage
      rw [hl]
    simp [hcl, hl]
  | some lv =>
    cases hs : signatureOf j with
    | none =>
      have hcl : classifyMessage j = none := by
        unfold classifyMessage
        rw [hl, hs]
        cases lv <;> rfl
      simp [hcl, hs]
    | some sv =>
      cases lv with
      | arr logs =>
        cases sv with
        | str s0 =>
          have hcl : classifyMessage j =
              (if logs.any isMarkerLog = true then some s0 else none) := by
            unfold classifyMessage
            rw [hl, hs]
          rw [hcl]
          by_cases hany : logs.any isMarkerLog = true
          · rw [if_pos hany]
            constructor
            · intro hsome
              obtain rfl : s0 = sig := by simpa using hsome
              exact ⟨logs, rfl, rfl, (any_isMarkerLog_iff logs).mp hany⟩
            · rintro ⟨logs', hlogs, hsig, _⟩
              simpa using hsig
          · rw [if_neg hany]
            constructor
            · intro hsome
              simp at hsome
            · rintro ⟨logs', hlogs, hsig, hml⟩
              obtain rfl : logs = logs' := by simpa using hlogs
              exact absurd ((any_isMarkerLog_iff logs).mpr hml) hany
        | null =>
          have hcl : classifyMessage j = none := by
            unfold classifyMessage
            rw [hl, hs]
          simp [hcl, hs]
        | bool b =>
          have hcl : classifyMessage j = none := by
            unfold classifyMessage
            rw [hl, hs]
          simp [hcl, hs]
        | num n =>
          have hcl : classifyMessage j = none := by
            unfold classifyMessage
            rw [hl, hs]
          simp [hcl, hs]
        | arr es =>
          have hcl : classifyMessage j = none := by
            unfold classifyMessage
            rw [hl, hs]
          simp [hcl, hs]
        | obj fs =>
          have hcl : classifyMessage j = none := by
            unfold classifyMessage
            rw [hl, hs]
          simp [hcl, hs]
      | null =>
        have hcl : classifyMessage j = none := by
          unfold classifyMessage
          rw [hl, hs]
        simp [hcl, hl]
      | bool b =>
        have hcl : classifyMessage j = none := by
          unfold classifyMessage
          rw [hl, hs]
        simp [hcl, hl]
      | num n =>
        have hcl : classifyMessage j = none := by
          unfold classifyMessage
          rw [hl, hs]
        simp [hcl, hl]
      | str s =>
        have hcl : classifyMessage j = none := by
          unfold classifyMessage
          rw [hl, hs]
        simp [hcl, hl]
      | obj fs =>
        have hcl : classifyMessage j = none := by
          unfold classifyMessage
          rw [hl, hs]
        simp [hcl, hl]

/-- An all-string marker message on which `classifyMessage_spec`
evaluates concretely. -/
def allStringMessage : Json :=
  mkLogMessage [Json.str poolCreationMarker] (Json.str "SIGA")

/-- Witness: `classifyMessage_spec` applied at a concrete accepted
message. -/
theorem classifyMessage_spec_witness :
    classifyMessage allStringMessage = some "SIGA" :=
  (classifyMessage_spec allStringMessage "SIGA").mpr
    ⟨[Json.str poolCreationMarker], rfl, rfl, Json.str poolCreationMarker,
      by simp, poolCreationMarker, rfl, rfl⟩

/-! ## C2 -/

/-- Claim C2: when the filter accepts a message, the handler's trace is
exactly one transport closure with the normal-closure code 1000,
followed by the pipeline's adapter calls, followed by the handler
restart — so the closure precedes every pipeline action, the message
produces exactly one pipeline run, and the only source of further
candidates (the restarted subscription) comes strictly after that run
resolves. -/
theorem close1000_precedes_pipeline (env : PipelineEnv) (j : Json) (sig : String)
    (h : classifyMessage j = some sig) :
    onMessage env (some j) =
      Event.closeTransport (some 1000) ::
        ((handleNewPool env sig).1.map Event.stage ++ [Event.restartHandler]) := by
  simp [onMessage, h]

/-- Witness: `close1000_precedes_pipeline` at a concrete accepted
message and concrete adapters. -/
theorem close1000_precedes_pipeline_witness :
    onMessage sampleEnv (some (mkLogMessage [Json.str poolCreationMarker] (Json.str "SIG2"))) =
      [Event.closeTransport (some 1000), Event.stage (StageCall.fetchCall "SIG2"),
        Event.restartHandler] := by
  rw [close1000_precedes_pipeline sampleEnv
        (mkLogMessage [Json.str poolCreationMarker] (Json.str "SIG2")) "SIG2" rfl]
  rfl

/-! ## C3 -/

/-- Claim C3: once the fetch stage yields details with an absent (or
empty) mint address, or a token mint that case-insensitively ends in
"pump" while `ignore_pump_fun` is set, the pipeline resolves
unsuccessfully and its trace is the fetch call alone — the rug checker
and the swap executor are never invoked. -/
theorem eligibility_rejects_before_risk (env : PipelineEnv) (sig : String)
    (td : DisplayDataItem)
    (hfetch : env.fetchTransactionDetails sig = .ok (some td))
    (hrej : strFalsy td.solMint = true ∨ strFalsy td.tokenMint = true ∨
      (jsEndsWith (jsToLower (td.tokenMint.getD "")) "pump" = true ∧
        config.liquidity_pool.ignore_pump_fun = true)) :
    (handleNewPool env sig).2 = none ∧
      (handleNewPool env sig).1 = [StageCall.fetchCall sig] := by
  unfold handleNewPool handleNewPoolBody
  rw [hfetch]
  rcases hrej with h | h | ⟨h1, h2⟩
  · simp [h]
  · simp [h]
  · by_cases hf : (strFalsy td.solMint || strFalsy td.tokenMint) = true
    · simp [hf]
    · simp [hf, h1, h2]

/-- Concrete adapters whose fetch returns a pump-suffixed token mint. -/
def pumpEnv : PipelineEnv :=
  { fetchTransactionDetails := fun _ =>
      .ok (some { solMint := some "So111111111111111111111111111111111111112"
                  tokenMint := some "ABCPump"
                  timestamp := 0 })
    getRugCheckConfirmed := fun _ => .ok true
    createSwapTransactions := fun _ _ => .ok (some "url") }

/-- Witness: `eligibility_rejects_before_risk` at concrete adapters
returning a mixed-case pump-suffixed mint. -/
theorem eligibility_rejects_before_risk_witness :
    (handleNewPool pumpEnv "SIG3").2 = none ∧
      (handleNewPool pumpEnv "SIG3").1 = [StageCall.fetchCall "SIG3"] :=
  eligibility_rejects_before_risk pumpEnv "SIG3"
    { solMint := some "So111111111111111111111111111111111111112"
      tokenMint := some "ABCPump"
      timestamp := 0 }
    rfl (Or.inr (Or.inr ⟨rfl, rfl⟩))

/-! ## C4 -/

/-- Claim C4: `getRugCheckConfirmed` returns `false` iff the provider
call threw, or the response's success flag reads falsy (including an
absent body), or a returned warning is in the configured disallowed
list, or the returned rating exceeds the configured single-holder
ceiling — and `handleNewPool` never reaches the swap executor when the
rug check does not return `true`.  When none of the conditions holds the
check passes; there is no partial-pass state. -/
theorem rugCheck_rejects_iff :
    (∀ response, getRugCheckConfirmed response = false ↔
      (rugCallFailed response = true ∨ rugSuccessFlag response = false ∨
        (∃ w ∈ rugWarnings response, w ∈ config.rug_check.not_allowed) ∨
        rugRating response > config.rug_check.single_holder_ownership)) ∧
    (∀ env sig, (∀ m, env.getRugCheckConfirmed m ≠ .ok true) →
      ∀ s t, StageCall.swapCall s t ∉ (handleNewPool env sig).1) := by
  constructor
  · intro response
    rcases response with e | respData
    · simp [getRugCheckConfirmed, rugCallFailed, rugSuccessFlag, rugWarnings, rugRating]
    · rcases respData with _ | r
      · simp [getRugCheckConfirmed, rugCallFailed, rugSuccessFlag, rugWarnings, rugRating]
      · by_cases hsf : r.success
        · by_cases hw : r.data.warnings.any
              (fun warning => config.rug_check.not_allowed.contains warning) = true
          · simp only [getRugCheckConfirmed, rugCallFailed, rugSuccessFlag, rugWarnings,
              rugRating, hsf, hw]
            simp only [List.any_eq_true] at hw
            simp [hsf]
            obtain ⟨w, hmem, hcont⟩ := hw
            exact Or.inl ⟨w, hmem, by simpa using hcont⟩
          · by_cases hr : r.data.rating > config.rug_check.single_holder_ownership
            · simp [getRugCheckConfirmed, rugCallFailed, rugSuccessFlag, rugWarnings,
                rugRating, hsf, hw, hr]
            · simp only [getRugCheckConfirmed, rugCallFailed, rugSuccessFlag, rugWarnings,
                rugRating, hsf, hw, hr]
              simp [hsf, hr]
              intro w hmem
              simp only [List.any_eq_true] at hw
              intro hcont
              exact hw ⟨w, hmem, by simpa using hcont⟩
        · simp [getRugCheckConfirmed, rugCallFailed, rugSuccessFlag, rugWarnings,
            rugRating, hsf]
  · intro env sig hno s t
    unfold handleNewPool handleNewPoolBody
    cases hf : env.fetchTransactionDetails sig with
    | error e => simp
    | ok tdOpt =>
      cases tdOpt with
      | none => simp
      | some td =>
        by_cases hm : (strFalsy td.solMint || strFalsy td.tokenMint) = true
        · simp [hm]
        · by_cases hp : (jsEndsWith (jsToLower (td.tokenMint.getD "")) "pump" &&
              config.liquidity_pool.ignore_pump_fun) = true
          · simp [hm, hp]
          · cases hrg : env.getRugCheckConfirmed (td.tokenMint.getD "") with
            | error e => simp [hm, hp, hrg]
            | ok b =>
              cases b with
              | false => simp [hm, hp, hrg]
              | true => exact absurd hrg (hno _)

/-- Witness: the first component of `rugCheck_rejects_iff` applied at a
successful response whose rating exceeds the ceiling. -/
theorem rugCheck_rejects_iff_witness :
    getRugCheckConfirmed
      (.ok (some { success := true, data := { rating := 31, warnings := [] } })) = false :=
  (rugCheck_rejects_iff.1 _).mpr (Or.inr (Or.inr (Or.inr (by decide))))

/-! ## C5 -/

/-- Claim C5: whenever a message's trace contains any pipeline stage
(i.e. the pipeline ran for a candidate), the trace ends with the handler
restart — a fresh connection attempt — regardless of whether the
adapters succeeded, rejected, or threw, and no trace of the message
handler ever contains a process exit. -/
theorem pipeline_resolution_restarts (env : PipelineEnv) (data : Option Json)
    (h : ∃ c, Event.stage c ∈ onMessage env data) :
    (onMessage env data).getLast? = some Event.restartHandler ∧
      ∀ n, Event.procExit n ∉ onMessage env data := by
  obtain ⟨c, hc⟩ := h
  cases data with
  | none => simp [onMessage] at hc
  | some j =>
    cases hcl : classifyMessage j with
    | none =>
      rw [show onMessage env (some j) = [] by simp [onMessage, hcl]] at hc
      simp at hc
    | some sig =>
      have htr : onMessage env (some j) =
          Event.closeTransport (some 1000) ::
            ((handleNewPool env sig).1.map Event.stage ++ [Event.restartHandler]) := by
        simp [onMessage, hcl]
      rw [htr]
      constructor
      · rw [← List.cons_append, List.getLast?_concat]
      · intro n
        simp

/-- Concrete adapters whose rug check throws, modelling an internal
error inside a pipeline stage. -/
def throwingRugEnv : PipelineEnv :=
  { fetchTransactionDetails := fun _ =>
      .ok (some { solMint := some "So111111111111111111111111111111111111112"
                  tokenMint := some "TOKEN"
                  timestamp := 0 })
    getRugCheckConfirmed := fun _ => .error "network failure"
    createSwapTransactions := fun _ _ => .ok none }

/-- Witness: `pipeline_resolution_restarts` on an accepted message whose
rug-check stage throws. -/
theorem pipeline_resolution_restarts_witness :
    (onMessage throwingRugEnv
        (some (mkLogMessage [Json.str poolCreationMarker] (Json.str "SIG5")))).getLast? =
      some Event.restartHandler ∧
      ∀ n, Event.procExit n ∉
        onMessage throwingRugEnv
          (some (mkLogMessage [Json.str poolCreationMarker] (Json.str "SIG5"))) :=
  pipeline_resolution_restarts throwingRugEnv
    (some (mkLogMessage [Json.str poolCreationMarker] (Json.str "SIG5")))
    ⟨StageCall.fetchCall "SIG5", by decide⟩

/-! ## C6 -/

/-- Claim C6 as stated is FALSE for undecodable frames: an undecodable
message lands in the message handler's `catch`, which closes the
transport (with no close code) and schedules a reconnect after 5000 ms —
the connection state is affected, not silently discarded. -/
theorem undecodable_message_not_silent :
    onMessage sampleEnv none =
      [Event.closeTransport none, Event.scheduleReconnect 5000] := rfl

/-- Claim C6 (amended): a message that decodes but is rejected by the
filter — missing or ill-typed `logs`/`signature` fields, or no marker —
is discarded silently with no transport closure and no scheduled
reconnect; an undecodable message instead takes the handler's error
path, which closes the transport (without a close code) and schedules a
reconnect after 5 seconds. -/
theorem malformed_decoded_message_silent (env : PipelineEnv) (j : Json)
    (h : classifyMessage j = none) :
    onMessage env (some j) = [] ∧
      onMessage env none =
        [Event.closeTransport none, Event.scheduleReconnect 5000] := by
  constructor
  · simp [onMessage, h]
  · rfl

/-- Witness: `malformed_decoded_message_silent` on a message whose
`logs` field is a string rather than an array. -/
theorem malformed_decoded_message_silent_witness :
    onMessage sampleEnv (some (mkLogMessage [] (Json.str "SIG6"))) = [] ∧
      onMessage sampleEnv none =
        [Event.closeTransport none, Event.scheduleReconnect 5000] :=
  malformed_decoded_message_silent sampleEnv (mkLogMessage [] (Json.str "SIG6")) rfl

/-! ## C7 -/

/-- Provider responses on which the swap `try` block would run to a
successful confirmation. -/
def sampleSwapIO : SwapIO :=
  { keypairValid := true
    quote := .ok (Json.obj [("outAmount", Json.num 1)])
    swapTx := .ok (Json.obj [("transaction", Json.str "dGVzdA")])
    deserializeOk := true
    blockhash := .ok ()
    send := .ok "TXID"
    confirm := .ok false }

/-- Claim C7 as stated is FALSE for the swap executor: with the
private key `"0"` — a character outside the base58 alphabet —
`bs58.decode` throws, and since the wallet construction on line 47 sits
OUTSIDE the `try` block, the exception escapes `createSwapTransactions`
for every provider behaviour. -/
theorem swapExecutor_throws_on_bad_key :
    throwsPastBoundary (createSwapTransactions "0" sampleSwapIO) = true := rfl

/-- Claim C7 (amended): the details fetcher and the risk checker are
fully wrapped in `try`/`catch` and always return a typed value (they are
embedded as total functions), and the swap executor returns a typed
result or `null` for every provider response — EXCEPT that it throws
past its boundary exactly when the private key is non-empty and wallet
construction fails on it (non-base58 text, a decoded length other than
64 bytes, or an invalid keypair), because that construction precedes its
`try` block. -/
theorem swapExecutor_throws_iff_wallet_fails (privateKey : String) (io : SwapIO) :
    throwsPastBoundary (createSwapTransactions privateKey io) = true ↔
      (privateKey.isEmpty = false ∧ walletConstructionFails privateKey io = true) := by
  unfold createSwapTransactions walletConstructionFails
  by_cases he : privateKey.isEmpty
  · simp [he, throwsPastBoundary]
  · cases hd : bs58Decode privateKey with
    | error e => simp [he, throwsPastBoundary]
    | ok keyBytes =>
      by_cases hl : (keyBytes.length != 64) = true
      · simp [he, hl, throwsPastBoundary]
      · by_cases hv : io.keypairValid
        · simp [he, hl, hv, throwsPastBoundary]
        · simp [he, hl, hv, throwsPastBoundary]

/-- Witness: `swapExecutor_throws_iff_wallet_fails` applied at the
concrete key `"0"`. -/
theorem swapExecutor_throws_iff_wallet_fails_witness :
    throwsPastBoundary (createSwapTransactions "O0O" sampleSwapIO) = true :=
  (swapExecutor_throws_iff_wallet_fails "O0O" sampleSwapIO).mpr ⟨rfl, rfl⟩

/-! ## C8 -/

/-- Claim C8 as stated is FALSE: the risk-check call
(transactions.ts lines 133-135) passes no options object to
`axios.get`, so it carries no timeout at all — axios's default — rather
than the fixed 5-second timeout the quote and swap calls set. -/
theorem rugCheck_call_has_no_timeout :
    (rugCheckRequest "TOKEN").timeoutMs = none ∧
      (rugCheckRequest "TOKEN").timeoutMs ≠ some 5000 :=
  ⟨rfl, by decide⟩

/-- Claim C8 (amended): the quote and swap provider calls are each
issued with a fixed 5-second per-call timeout, but the risk-check
provider call is issued with no timeout for every token mint. -/
theorem outbound_call_timeouts :
    quoteRequest.timeoutMs = some 5000 ∧
      swapRequest.timeoutMs = some 5000 ∧
      ∀ tokenMint, (rugCheckRequest tokenMint).timeoutMs = none :=
  ⟨rfl, rfl, fun _ => rfl⟩

/-! ## C9 -/

/-- Claim C9: the `close` callback schedules a reconnection attempt
after a fixed 5000 ms delay exactly when the close code is not the
normal-closure code 1000, and schedules nothing after a normal closure;
a transport error (whose `error` callback only logs, and which the ws
library follows with an abnormal close) therefore also ends in a
scheduled 5-second reconnect. -/
theorem abnormal_close_schedules_reconnect (code : Nat) (h : code ≠ 1000) :
    onClose code = [Event.scheduleReconnect 5000] ∧
      onTransportError code = [Event.scheduleReconnect 5000] ∧
      onClose 1000 = [] := by
  refine ⟨?_, ?_, rfl⟩ <;>
    simp [onClose, onTransportError, onError, h]

/-- Witness: `abnormal_close_schedules_reconnect` at the abnormal close
code 1006. -/
theorem abnormal_close_schedules_reconnect_witness :
    onClose 1006 = [Event.scheduleReconnect 5000] ∧
      onTransportError 1006 = [Event.scheduleReconnect 5000] ∧
      onClose 1000 = [] :=
  abnormal_close_schedules_reconnect 1006 (by decide)

/-! ## C10 -/

/-- The account scan can only produce the tag it compared against: a
non-empty result of `findTokenMint` is the literal string `"mint"`. -/
theorem findTokenMint_eq_mint (accounts : List Json)
    (h : (findTokenMint accounts).isEmpty = false) :
    findTokenMint accounts = "mint" := by
  induction accounts with
  | nil => exact absurd h (by decide)
  | cons account rest ih =>
    unfold findTokenMint at h ⊢
    cases hf : account.getField "account" with
    | none =>
      rw [hf] at h
      exact ih h
    | some v =>
      cases v with
      | str s =>
        rw [hf] at h
        have h' : (if (s == "mint" && jsTruthyOpt (account.getField "nativeBalance")) = true
            then s else findTokenMint rest).isEmpty = false := h
        show (if (s == "mint" && jsTruthyOpt (account.getField "nativeBalance")) = true
            then s else findTokenMint rest) = "mint"
        by_cases hcnd : (s == "mint" && jsTruthyOpt (account.getField "nativeBalance")) = true
        · rw [if_pos hcnd]
          exact eq_of_beq ((Bool.and_eq_true _ _).mp hcnd).1
        · rw [if_neg hcnd] at h' ⊢
          exact ih h'
      | null =>
        rw [hf] at h
        exact ih h
      | bool b =>
        rw [hf] at h
        exact ih h
      | num n =>
        rw [hf] at h
        exact ih h
      | arr es =>
        rw [hf] at h
        exact ih h
      | obj fs =>
        rw [hf] at h
        exact ih h

/-- Claim C10: whenever the API-key-keyed fetch variant returns a
non-null result, its `tokenMint` is the literal string "mint" — the
account-type tag the scan compared against, not a real mint address —
and its `solMint` is the statically configured wSOL constant. -/
theorem apiKeyed_fetch_returns_tag (apiConfigured : Bool)
    (response : Except Unit Json) (now : Nat) (d : DisplayDataItem)
    (h : fetchTransactionDetailsApiKeyed apiConfigured response now = some d) :
    d.tokenMint = some "mint" ∧
      d.solMint = some config.liquidity_pool.wsol_pc_mint := by
  unfold fetchTransactionDetailsApiKeyed at h
  split at h
  · exact absurd h (by simp)
  · split at h
    · exact absurd h (by simp)
    · split at h
      · exact absurd h (by simp)
      · split at h
        · exact absurd h (by simp)
        · split at h
          · rename_i accounts heq
            have h' : (if (findTokenMint accounts).isEmpty = true
                then (none : Option DisplayDataItem)
                else some (DisplayDataItem.mk (some config.liquidity_pool.wsol_pc_mint)
                  (some (findTokenMint accounts)) now)) = some d := h
            by_cases hemp : (findTokenMint accounts).isEmpty = true
            · rw [if_pos hemp] at h'
              exact absurd h' (by simp)
            · rw [if_neg hemp] at h'
              have hd : DisplayDataItem.mk (some config.liquidity_pool.wsol_pc_mint)
                  (some (findTokenMint accounts)) now = d := by
                simpa using h'
              have hmint := findTokenMint_eq_mint accounts (Bool.eq_false_iff.mpr hemp)
              rw [← hd]
              simp [hmint]
          · have hnone : (none : Option DisplayDataItem) = some d := h
            exact absurd hnone (by simp)
      · exact absurd h (by simp)

/-- A provider response holding one transaction whose `accountData`
contains a truthy-balance `mint`-tagged account. -/
def mintTagResponse : Json :=
  Json.arr [Json.obj [("accountData", Json.arr
    [Json.obj [("account", Json.str "mint"), ("nativeBalance", Json.num 5)]])]]

/-- The record the API-key-keyed fetch produces on `mintTagResponse`. -/
def mintTagItem : DisplayDataItem :=
  { solMint := some config.liquidity_pool.wsol_pc_mint
    tokenMint := some "mint"
    timestamp := 0 }

/-- Witness: `apiKeyed_fetch_returns_tag` at a concrete accepted
provider response. -/
theorem apiKeyed_fetch_returns_tag_witness :
    mintTagItem.tokenMint = some "mint" ∧
      mintTagItem.solMint = some config.liquidity_pool.wsol_pc_mint :=
  apiKeyed_fetch_returns_tag true (.ok mintTagResponse) 0 mintTagItem rfl
